import Mathlib

/-!
Shallow embedding of `gol.py`, a curses-based Conway's Game of Life.

Modelling conventions:
* A Python list of lists of one-character strings becomes `List (List Char)`.
* Python integers become `Int` (coordinates, which may go negative) or `Nat`
  (loop counters).
* Fallible Python code (expressions that can raise `IndexError` or
  `ValueError`) returns `Option`; `none` stands for the raised exception.
* The float expression `int((seed_percentage / 100.0) * (rows * cols))` is
  modelled with exact rational arithmetic: truncated division
  `Int.tdiv (seed_percentage * (rows * cols)) 100`.
* `random.randint` outputs are modelled by an ambient stream
  `picks : Nat → Int × Int` of `(x, y)` pairs; `random.randint(0, n)` with
  `n < 0` raises `ValueError`, modelled as `none`.
* The curses screen is modelled by its observable effects: `draw` returns the
  list of `addstr` calls it performs, and key presses are values of `Cmd`.
-/

namespace Gol

/-- The character stored in a dead cell (`dead_c = '-'` in the source). -/
def dead_c : Char := '-'

/-- The character stored in a live cell (`alive_c = 'x'` in the source). -/
def alive_c : Char := 'x'

/-- A grid is a Python list of rows, each row a list of cell characters. -/
abbrev Grid := List (List Char)

/-- Python list indexing `l[i]`: nonnegative indices index from the front,
negative indices from the back, and anything out of range raises `IndexError`
(modelled as `none`). -/
def pyIdx {α : Type} (l : List α) (i : Int) : Option α :=
  if 0 ≤ i then l.get? i.toNat
  else if 0 ≤ i + l.length then l.get? (i + (l.length : Int)).toNat
  else none

/-- Embedding of `wrap_border(x, y, grid)` (lines 78-96): detects border
collision and adjusts `x` and/or `y` to wrap to the other side, using the
grid's own physical dimensions `rows = len(grid)`, `cols = len(grid[0])`.
(On the empty grid the Python `len(grid[0])` raises; no theorem below uses
`wrap_border` on an empty grid.) -/
def wrap_border (x y : Int) (grid : Grid) : Int × Int :=
  let rows : Int := grid.length
  let cols : Int := (grid.headD []).length
  let x' : Int := if x ≥ cols then x - cols else if x < 0 then cols + x else x
  let y' : Int := if y ≥ rows then y - rows else if y < 0 then rows + y else y
  (x', y')

/-- Embedding of `get_coordinate_value(x, y, grid)` (lines 99-106): wraps the
coordinate and reports whether the cell there is alive.  `none` models the
`IndexError` raised when the (wrapped) coordinate is still out of range. -/
def get_coordinate_value (x y : Int) (grid : Grid) : Option Bool :=
  let p := wrap_border x y grid
  (pyIdx grid p.2).bind fun row => (pyIdx row p.1).map fun v => v == alive_c

/-- Embedding of `sum_adjecent_fields(x, y, grid)` (lines 109-133): the number
of live cells among the 8 Moore neighbours, read in source order. -/
def sum_adjecent_fields (x y : Int) (grid : Grid) : Option Nat := do
  let b1 ← get_coordinate_value (x - 1) y grid
  let b2 ← get_coordinate_value (x - 1) (y - 1) grid
  let b3 ← get_coordinate_value (x - 1) (y + 1) grid
  let b4 ← get_coordinate_value (x + 1) y grid
  let b5 ← get_coordinate_value (x + 1) (y - 1) grid
  let b6 ← get_coordinate_value (x + 1) (y + 1) grid
  let b7 ← get_coordinate_value x (y - 1) grid
  let b8 ← get_coordinate_value x (y + 1) grid
  pure ((if b1 then 1 else 0) + (if b2 then 1 else 0) + (if b3 then 1 else 0) +
        (if b4 then 1 else 0) + (if b5 then 1 else 0) + (if b6 then 1 else 0) +
        (if b7 then 1 else 0) + (if b8 then 1 else 0))

/-- Embedding of `decide_fate(x, y, sum_fields, grid)` (lines 136-149): adds 1
to the neighbour sum when the cell itself is alive, then returns `alive_c` on
a total of 3, `alive_c`/`dead_c` by current state on a total of 4, and
`dead_c` otherwise. -/
def decide_fate (x y : Int) (sum_fields : Nat) (grid : Grid) : Option Char :=
  (get_coordinate_value x y grid).map fun is_alive =>
    let s := if is_alive then sum_fields + 1 else sum_fields
    if s == 3 then alive_c
    else if s == 4 then (if is_alive then alive_c else dead_c)
    else dead_c

/-- The number of seeding trials, `int((seed_percentage / 100.0) * (rows *
cols))` from line 158, with the float arithmetic modelled as exact rational
arithmetic followed by Python `int()` truncation toward zero. -/
def num_seeds (seed_percentage rows cols : Int) : Int :=
  Int.tdiv (seed_percentage * (rows * cols)) 100

/-- The Python statement `grid[y][x] = v` for the in-range nonnegative indices
produced by `random.randint` (line 168).  Out-of-range indices leave the grid
unchanged; no randint output is out of range. -/
def setCell (grid : Grid) (x y : Int) (v : Char) : Grid :=
  if 0 ≤ x ∧ 0 ≤ y then
    match grid.get? y.toNat with
    | some row => grid.set y.toNat (row.set x.toNat v)
    | none => grid
  else grid

/-- Embedding of `set_up_grid(seed_grid)` (lines 152-209): allocates a
`(rows+1) × (cols+1)` grid of `dead_c` (`cols, rows` come from
`get_grid_dimensions()`, passed here as parameters), then runs
`num_seeds` seeding trials, each setting the randomly picked cell `picks i`
to `alive_c`.  `random.randint(0, rows - 1)` raises `ValueError` (here
`none`) when `rows - 1 < 0`, and similarly for `cols`; this can only happen
when at least one trial runs. -/
def set_up_grid (cols rows seed_percentage : Int) (picks : Nat → Int × Int)
    (seed_grid : Bool) : Option Grid :=
  let seeds := num_seeds seed_percentage rows cols
  let grid : Grid :=
    List.replicate (rows + 1).toNat (List.replicate (cols + 1).toNat dead_c)
  if seed_grid then
    if seeds.toNat = 0 then some grid
    else if rows ≤ 0 ∨ cols ≤ 0 then none
    else some ((List.range seeds.toNat).foldl
      (fun g i => setCell g (picks i).1 (picks i).2 alive_c) grid)
  else some grid

/-- Embedding of `check_for_extinction(grid)` (lines 212-217): true iff no
cell of the grid holds `alive_c`. -/
def check_for_extinction (grid : Grid) : Bool :=
  grid.all fun row => row.all fun col => !(col == alive_c)

/-- Embedding of `draw(grid)` (lines 59-75) by its observable effect: the
list of `addstr(y_cnt, x_cnt, value)` calls it performs, in order, with
`y_cnt` and `x_cnt` starting at 1 to keep the borders intact. -/
def draw (grid : Grid) : List (Nat × Nat × Char) :=
  (grid.enum.map fun yr => yr.2.enum.map fun xv => (yr.1 + 1, xv.1 + 1, xv.2)).flatten

/-- A key press observed by `stdscr.getch()`: the keys `check_input` and
`pause` react to, or `noKey` for "no input pending / any other key". -/
inductive Cmd where
  | q | p | minus | plus | resize | enter | space | noKey
deriving DecidableEq, BEq, Repr

/-- Embedding of `pause()` (lines 220-225) by its observable effect: it blocks
for one key and exits the whole program (via `graceful_exit`) iff that key is
`q`.  Returns `true` when the program exits. -/
def pause (key : Cmd) : Bool := key == Cmd.q

/-- Embedding of `check_input()` (lines 252-272).  `sleep_interval` is the
global interval; `pause_key` is the key read by `pause()` if `p` was pressed.
Result `none` models `graceful_exit` (the program exits); `some (reseed, si)`
gives the truthiness of the return value (`True` requests a re-seed and makes
`main` return) and the new value of `sleep_interval`. -/
def check_input (sleep_interval : Int) (key pause_key : Cmd) :
    Option (Bool × Int) :=
  match key with
  | Cmd.q => none
  | Cmd.p => if pause pause_key then none else some (false, sleep_interval)
  | Cmd.minus => some (false, sleep_interval + 50)
  | Cmd.plus =>
      some (false, if sleep_interval - 50 ≥ 0 then sleep_interval - 50 else 0)
  | Cmd.resize => some (true, sleep_interval)
  | Cmd.enter => some (true, sleep_interval)
  | Cmd.space => some (true, sleep_interval)
  | Cmd.noKey => some (false, sleep_interval)

/-- Folds `check_input` over a sequence of key presses (each paired with the
key its possible inner `pause()` would read), threading `sleep_interval`;
`none` if some press exits or ends the session. -/
def apply_commands (sleep_interval : Int) (cs : List (Cmd × Cmd)) : Option Int :=
  cs.foldlM (fun s ck => (check_input s ck.1 ck.2).map fun r => r.2) sleep_interval

/-- The Python statement `next_grid[y][x] = new_value` (line 323): raises
`IndexError` (`none`) when the index is out of range for `next_grid`, which
happens when the window was resized between the two `set_up_grid` calls. -/
def setCellOpt (grid : Grid) (x y : Nat) (v : Char) : Option Grid :=
  (grid.get? y).bind fun row =>
    if x < row.length then some (grid.set y (row.set x v)) else none

/-- One inner step of the generation loop (lines 318-328): compute the
neighbour sum and the new value for `(x, y)`, compare with `grid[y][x]` to
update `changed`, and store the new value into the accumulated next grid. -/
def advStep (grid : Grid) (y : Nat) (acc : Grid × Bool) (x : Nat) :
    Option (Grid × Bool) := do
  let sum_fields ← sum_adjecent_fields x y grid
  let new_value ← decide_fate x y sum_fields grid
  let old ← (grid.get? y).bind fun row => row.get? x
  let next ← setCellOpt acc.1 x y new_value
  pure (next, acc.2 || (new_value != old))

/-- Embedding of the generation-advance step of `main` (lines 311-331): the
nested `for row in grid: for _ in row:` loop that fills `next_grid` (the
unseeded grid allocated at line 314, passed here as `next_grid`) and computes
the `changed` flag.  `none` models the `IndexError` escape on resize. -/
def advance (grid : Grid) (next_grid : Grid) : Option (Grid × Bool) :=
  grid.enum.foldlM
    (fun acc yrow => (List.range yrow.2.length).foldlM (advStep grid yrow.1) acc)
    (next_grid, false)

/-- The per-session mutable state of `main`'s loop (lines 301-308): the
current grid, the `grandfather_grid` snapshot (`none` models the initial
`[]`, before any assignment), the iteration counter and its active flag.
Generic in the grid type `G`: the loop compares grids only with `==`. -/
structure LoopState (G : Type) where
  grid : G
  grandfather : Option G
  iterations : Nat
  iter_counter_active : Bool
deriving DecidableEq, Repr

/-- The state update a loop pass performs once the next grid is known and the
pass reaches the oscillation check (lines 333-336 and 354-361): refresh the
grandfather snapshot on even iteration counts, publish `next` as the current
grid, clear the counter-active flag when `next_grid == grandfather_grid`, and
increment the counter iff the flag is still set. -/
def updateState {G : Type} [BEq G] (s : LoopState G) (next : G) : LoopState G :=
  let gf := if s.iterations % 2 == 0 then some s.grid else s.grandfather
  let osc := some next == gf
  let active := if osc then false else s.iter_counter_active
  { grid := next, grandfather := gf,
    iterations := if active then s.iterations + 1 else s.iterations,
    iter_counter_active := active }

/-- One full continuing pass of `main`'s loop in the run where every advance
succeeds with `changed = true` and no session-ending input arrives: the
current grid becomes `adv s.grid` and the bookkeeping follows `updateState`. -/
def stepState {G : Type} [BEq G] (adv : G → G) (s : LoopState G) : LoopState G :=
  updateState s (adv s.grid)

/-- How a pass of `main`'s loop can end the session (a `return` from `main`,
or `graceful_exit` terminating the whole program). -/
inductive Outcome where
  | quit | reseed | stoppedExtinct | stoppedEquilibrium | resized
deriving DecidableEq, Repr

/-- Embedding of one pass of `main`'s `while True:` loop (lines 311-364).
`adv` performs the generation advance (`none` = `IndexError`, i.e. resize);
`key` is the key `check_input` reads, `pause_key` the key an inner `pause()`
(from pressing `p`) would read, and `stop_key` the key the no-change branch's
`pause()` (line 351) would read.  Renderer calls (`draw`, `put_msg`) are
assumed to succeed; their failure would only add another `resized` exit.
Returns either a session-ending `Outcome` or the next loop state, plus the
final `sleep_interval`. -/
def loopBody {G : Type} [BEq G] (extinct : G → Bool)
    (adv : G → Option (G × Bool)) (s : LoopState G)
    (key pause_key stop_key : Cmd) (sleep_interval : Int) :
    (Outcome ⊕ LoopState G) × Int :=
  match adv s.grid with
  | none => (Sum.inl Outcome.resized, sleep_interval)
  | some (next, changed) =>
    match check_input sleep_interval key pause_key with
    | none => (Sum.inl Outcome.quit, sleep_interval)
    | some (true, si) => (Sum.inl Outcome.reseed, si)
    | some (false, si) =>
      if !changed then
        if pause stop_key then (Sum.inl Outcome.quit, si)
        else if extinct next then (Sum.inl Outcome.stoppedExtinct, si)
        else (Sum.inl Outcome.stoppedEquilibrium, si)
      else (Sum.inr (updateState s next), si)

/-- The value of cell `(x, y)` of a grid, `grid[y][x]` at nonnegative
in-range indices. -/
def cellAt (g : Grid) (x y : Nat) : Option Char :=
  (g.get? y).bind fun row => row.get? x

/-- A cell character is one of the two legal states. -/
def cell_ok (c : Char) : Prop := c = dead_c ∨ c = alive_c

/-- Every cell of the grid holds one of the two legal states. -/
def TwoValued (g : Grid) : Prop := ∀ row ∈ g, ∀ c ∈ row, cell_ok c

/-- Modelled from the spec: the design-level B3/S23 rule — an alive cell
survives with 2 or 3 live neighbours, a dead cell is born with exactly 3,
everything else is dead.  Used only to compare `decide_fate` against the
specification's wording. -/
def spec_rule (alive : Bool) (n : Nat) : Bool :=
  if alive then (n == 2 || n == 3) else n == 3

/-- A fixed all-dead 10 × 10 grid, used to check the specific wrap examples. -/
def grid10 : Grid := List.replicate 10 (List.replicate 10 dead_c)

/-! ## Helper lemmas -/

/-- Single-step wrapped coordinates land inside the grid's own dimensions. -/
theorem wrap_border_range (g : Grid) (x y : Int)
    (hr : 1 ≤ g.length) (hc : 1 ≤ (g.headD []).length)
    (hx1 : -1 ≤ x) (hx2 : x ≤ ((g.headD []).length : Int))
    (hy1 : -1 ≤ y) (hy2 : y ≤ (g.length : Int)) :
    0 ≤ (wrap_border x y g).1 ∧ (wrap_border x y g).1 < ((g.headD []).length : Int) ∧
    0 ≤ (wrap_border x y g).2 ∧ (wrap_border x y g).2 < (g.length : Int) := by
  simp only [wrap_border]
  split_ifs <;> refine ⟨by omega, by omega, by omega, by omega⟩

/-- An invariant preserved by each step of an `Option`-valued left fold is
preserved by the whole fold. -/
theorem foldlM_option_inv {α σ : Type} (f : σ → α → Option σ) (P : σ → Prop)
    (hf : ∀ s a s', P s → f s a = some s' → P s') :
    ∀ (l : List α) (s s' : σ), P s → l.foldlM f s = some s' → P s' := by
  intro l
  induction l with
  | nil =>
    intro s s' hs h
    simp only [List.foldlM_nil, pure, Option.some.injEq] at h
    exact h ▸ hs
  | cons a l ih =>
    intro s s' hs h
    rw [List.foldlM_cons] at h
    cases hfa : f s a with
    | none => rw [hfa] at h; simp at h
    | some s1 =>
      rw [hfa] at h
      simp only [Option.bind_eq_bind, Option.some_bind] at h
      exact ih s1 s' (hf s a s1 hs hfa) h

/-- Every cell stored in the grid is emitted by `draw`, at screen position
`(row + 1, column + 1)`. -/
theorem draw_mem (g : Grid) (j : Nat) (row : List Char) (i : Nat) (v : Char)
    (hj : g.get? j = some row) (hi : row.get? i = some v) :
    (j + 1, i + 1, v) ∈ draw g := by
  unfold draw
  have h1 : (j, row) ∈ g.enum := List.mem_enum_iff_get?.2 hj
  have h2 : (i, v) ∈ row.enum := List.mem_enum_iff_get?.2 hi
  exact List.mem_flatten_of_mem (List.mem_map_of_mem _ h1) (List.mem_map_of_mem _ h2)

/-! ## C4: wrap_border maps single-step offsets into the grid -/

/-- C4: for every grid `g` of dimensions `cols × rows` (taken from the grid
itself, as `wrap_border` does) and every coordinate within one step of the
range (`x ∈ [-1, cols]`, `y ∈ [-1, rows]`), `wrap_border` lands in
`[0, cols) × [0, rows)`; and on a 10 × 10 grid `wrap_border (-1) 0` is
`(9, 0)` while `wrap_border 10 0` is `(0, 0)`. -/
theorem wrap_border_single_step (g : Grid) (x y : Int)
    (hr : 1 ≤ g.length) (hc : 1 ≤ (g.headD []).length)
    (hx1 : -1 ≤ x) (hx2 : x ≤ ((g.headD []).length : Int))
    (hy1 : -1 ≤ y) (hy2 : y ≤ (g.length : Int)) :
    (0 ≤ (wrap_border x y g).1 ∧ (wrap_border x y g).1 < ((g.headD []).length : Int) ∧
     0 ≤ (wrap_border x y g).2 ∧ (wrap_border x y g).2 < (g.length : Int)) ∧
    wrap_border (-1) 0 grid10 = (9, 0) ∧ wrap_border 10 0 grid10 = (0, 0) :=
  ⟨wrap_border_range g x y hr hc hx1 hx2 hy1 hy2, by decide, by decide⟩

/-- Witness for C4 at the concrete input `grid10`, `x = -1`, `y = 0`. -/
theorem wrap_border_single_step_witness :
    (0 ≤ (wrap_border (-1) 0 grid10).1 ∧
     (wrap_border (-1) 0 grid10).1 < ((grid10.headD []).length : Int) ∧
     0 ≤ (wrap_border (-1) 0 grid10).2 ∧
     (wrap_border (-1) 0 grid10).2 < ((grid10.length : Int)) ∧
     wrap_border (-1) 0 grid10 = (9, 0) ∧ wrap_border 10 0 grid10 = (0, 0)) :=
  have h := wrap_border_single_step grid10 (-1) 0 (by decide) (by decide)
    (by decide) (by decide) (by decide) (by decide)
  ⟨h.1.1, h.1.2.1, h.1.2.2.1, h.1.2.2.2, h.2.1, h.2.2⟩

/-! ## C1: decide_fate is extensionally the B3/S23 rule -/

/-- C1: for every grid, coordinate, and neighbour count `n` returned by
`sum_adjecent_fields`, `decide_fate`'s "add 1 if alive, then test for 3 or 4"
encoding agrees with the design-level B3/S23 rule: an alive cell stays alive
exactly on `n ∈ {2, 3}`, a dead cell is born exactly on `n = 3`, and every
other combination yields `dead_c`. -/
theorem decide_fate_is_b3s23 (g : Grid) (x y : Int) (n : Nat)
    (h : sum_adjecent_fields x y g = some n) :
    decide_fate x y n g =
      (get_coordinate_value x y g).map fun alive =>
        if spec_rule alive n then alive_c else dead_c := by
  clear h
  cases hv : get_coordinate_value x y g with
  | none => simp [decide_fate, hv]
  | some alive =>
    simp only [decide_fate, hv, Option.map_some', Option.some.injEq, spec_rule]
    cases alive <;>
      · by_cases h2 : n = 2 <;> by_cases h3 : n = 3 <;> by_cases h4 : n = 4 <;>
          simp_all

/-- Witness for C1 on the all-alive 3 × 3 grid at `(1, 1)`, whose neighbour
count is 8. -/
theorem decide_fate_is_b3s23_witness :
    decide_fate 1 1 8 (List.replicate 3 (List.replicate 3 alive_c)) =
      (get_coordinate_value 1 1 (List.replicate 3 (List.replicate 3 alive_c))).map
        fun alive => if spec_rule alive 8 then alive_c else dead_c :=
  decide_fate_is_b3s23 (List.replicate 3 (List.replicate 3 alive_c)) 1 1 8 (by decide)

/-! ## C9: the sleep interval stays non-negative -/

/-- The interval produced by any non-exiting `check_input` call stays
non-negative when it starts non-negative. -/
theorem check_input_nonneg (si : Int) (k pk : Cmd) (r : Bool) (si' : Int)
    (h : 0 ≤ si) (he : check_input si k pk = some (r, si')) : 0 ≤ si' := by
  cases k <;> simp only [check_input] at he
  case q => exact Option.noConfusion he
  case p => split_ifs at he <;> simp_all
  case plus =>
    simp only [Option.some.injEq, Prod.mk.injEq] at he
    rcases he with ⟨-, he⟩
    split_ifs at he <;> omega
  all_goals
    simp only [Option.some.injEq, Prod.mk.injEq] at he
  all_goals omega

/-- C9: the step interval is preserved non-negative by every input command —
a speed-up (`+`) moves it down by the fixed step 50 but floors it at 0, a
speed-down (`-`) moves it up by the same step 50, and after any sequence of
commands it is still `≥ 0`. -/
theorem sleep_interval_nonneg (si : Int) (key pause_key : Cmd) (h : 0 ≤ si) :
    (∀ r si', check_input si key pause_key = some (r, si') → 0 ≤ si') ∧
    check_input si Cmd.plus pause_key = some (false, max (si - 50) 0) ∧
    check_input si Cmd.minus pause_key = some (false, si + 50) ∧
    (∀ (cs : List (Cmd × Cmd)) (si' : Int), apply_commands si cs = some si' → 0 ≤ si') := by
  refine ⟨fun r si' he => check_input_nonneg si key pause_key r si' h he, ?_, rfl, ?_⟩
  · show some (false, if si - 50 ≥ 0 then si - 50 else 0) = some (false, max (si - 50) 0)
    have hm : (if si - 50 ≥ 0 then si - 50 else 0) = max (si - 50) 0 := by
      split_ifs <;> omega
    rw [hm]
  · intro cs si' he
    refine foldlM_option_inv _ (fun s => 0 ≤ s) ?_ cs si si' h he
    intro s ck s' hs hstep
    cases hci : check_input s ck.1 ck.2 with
    | none => rw [hci] at hstep; simp at hstep
    | some rsi =>
      rw [hci] at hstep
      simp only [Option.map_some', Option.some.injEq] at hstep
      exact hstep ▸ check_input_nonneg s ck.1 ck.2 rsi.1 rsi.2 hs (by rw [hci])

/-- Witness for C9 at `sleep_interval = 10` and the speed-up key. -/
theorem sleep_interval_nonneg_witness :
    check_input 10 Cmd.plus Cmd.noKey = some (false, max (10 - 50) 0) ∧
    (∀ si', apply_commands 10 [(Cmd.plus, Cmd.noKey), (Cmd.minus, Cmd.noKey)] = some si' → 0 ≤ si') :=
  have h := sleep_interval_nonneg 10 Cmd.plus Cmd.noKey (by decide)
  ⟨h.2.1, fun si' he => h.2.2.2 _ si' he⟩

/-! ## C3: the extra allocated row/column versus the logical play area -/

/-- C3 counterexample: with a logical window of `cols = 2`, `rows = 2`,
`set_up_grid` allocates a physical 3 × 3 grid; the advance step's neighbour
lookup for the logical cell `(1, 0)` toward `(x + 1, y) = (2, 0)` resolves
(via `wrap_border`) to column 2, which lies outside the logical play area
`[0, 2) × [0, 2)`, and `draw` renders the extra corner cell `(2, 2)` (as the
`addstr` call at screen position `(3, 3)`).  So the extra row and column are
both read by wrapped lookups and rendered. -/
theorem extra_cells_touched_cx :
    set_up_grid 2 2 0 (fun _ => (0, 0)) true =
      some (List.replicate 3 (List.replicate 3 dead_c)) ∧
    wrap_border 2 0 (List.replicate 3 (List.replicate 3 dead_c)) = (2, 0) ∧
    ¬((2 : Int) < 2) ∧
    (3, 3, dead_c) ∈ draw (List.replicate 3 (List.replicate 3 dead_c)) := by
  refine ⟨by decide, by decide, by decide, ?_⟩
  exact draw_mem _ 2 (List.replicate 3 dead_c) 2 dead_c (by decide) (by decide)

/-- C3 amended: the play area actually simulated and rendered is the whole
physical `(cols+1) × (rows+1)` grid: every neighbour lookup the advance step
performs from a cell of the physical grid resolves (via `wrap_border`) to a
coordinate inside the physical grid, and every cell of the physical grid —
including the extra row and column — is rendered by `draw`. -/
theorem physical_grid_is_play_area (g : Grid) (x y dx dy : Int)
    (hr : 1 ≤ g.length) (hc : 1 ≤ (g.headD []).length)
    (hx : 0 ≤ x) (hx2 : x < ((g.headD []).length : Int))
    (hy : 0 ≤ y) (hy2 : y < (g.length : Int))
    (hdx : -1 ≤ dx) (hdx2 : dx ≤ 1) (hdy : -1 ≤ dy) (hdy2 : dy ≤ 1) :
    (0 ≤ (wrap_border (x + dx) (y + dy) g).1 ∧
     (wrap_border (x + dx) (y + dy) g).1 < ((g.headD []).length : Int) ∧
     0 ≤ (wrap_border (x + dx) (y + dy) g).2 ∧
     (wrap_border (x + dx) (y + dy) g).2 < (g.length : Int)) ∧
    (∀ (j : Nat) (row : List Char) (i : Nat) (v : Char),
      g.get? j = some row → row.get? i = some v → (j + 1, i + 1, v) ∈ draw g) :=
  ⟨wrap_border_range g (x + dx) (y + dy) hr hc (by omega) (by omega) (by omega) (by omega),
   fun j row i v hj hi => draw_mem g j row i v hj hi⟩

/-- Witness for the amended C3 on the physical 3 × 3 grid at cell `(1, 0)`
with offset `(1, 0)`. -/
theorem physical_grid_is_play_area_witness :
    (0 ≤ (wrap_border (1 + 1) (0 + 0) (List.replicate 3 (List.replicate 3 dead_c))).1 ∧
     (wrap_border (1 + 1) (0 + 0) (List.replicate 3 (List.replicate 3 dead_c))).1 <
       (((List.replicate 3 (List.replicate 3 dead_c) : Grid).headD []).length : Int) ∧
     0 ≤ (wrap_border (1 + 1) (0 + 0) (List.replicate 3 (List.replicate 3 dead_c))).2 ∧
     (wrap_border (1 + 1) (0 + 0) (List.replicate 3 (List.replicate 3 dead_c))).2 <
       ((List.replicate 3 (List.replicate 3 dead_c) : Grid).length : Int)) ∧
    (∀ (j : Nat) (row : List Char) (i : Nat) (v : Char),
      (List.replicate 3 (List.replicate 3 dead_c) : Grid).get? j = some row →
      row.get? i = some v →
      (j + 1, i + 1, v) ∈ draw (List.replicate 3 (List.replicate 3 dead_c))) :=
  physical_grid_is_play_area (List.replicate 3 (List.replicate 3 dead_c)) 1 0 1 0
    (by decide) (by decide) (by decide) (by decide) (by decide) (by decide)
    (by decide) (by decide) (by decide) (by decide)

/-! ## C5: grid creation performs no validation of the seed inputs -/

/-- C5 counterexample: `set_up_grid` happily produces a grid for a seed
percentage of 200 (probability 2, outside `[0, 1]`) and for -50 (negative):
neither is rejected. -/
theorem seed_validation_cx :
    (set_up_grid 2 2 200 (fun _ => (0, 0)) true).isSome = true ∧
    (set_up_grid 2 2 (-50) (fun _ => (0, 0)) true).isSome = true := by
  decide

/-- C5 amended: grid creation never validates the seed probability — whenever
the computed trial count is zero (in particular for any non-positive
percentage) it returns the all-dead grid, and with a positive trial count it
returns a grid whenever the dimensions are positive, no matter how large the
percentage; the only failing case is a positive trial count with a
non-positive dimension, where `random.randint` raises. -/
theorem set_up_grid_no_validation (cols rows sp : Int) (picks : Nat → Int × Int) :
    ((num_seeds sp rows cols).toNat = 0 →
      set_up_grid cols rows sp picks true =
        some (List.replicate (rows + 1).toNat (List.replicate (cols + 1).toNat dead_c))) ∧
    (0 < (num_seeds sp rows cols).toNat → (rows ≤ 0 ∨ cols ≤ 0) →
      set_up_grid cols rows sp picks true = none) ∧
    (0 < (num_seeds sp rows cols).toNat → 0 < rows → 0 < cols →
      (set_up_grid cols rows sp picks true).isSome = true) := by
  refine ⟨?_, ?_, ?_⟩
  · intro h
    simp [set_up_grid, h]
  · intro h1 h2
    have hz : ¬((num_seeds sp rows cols).toNat = 0) := by omega
    simp [set_up_grid, hz, h2]
  · intro h1 h2 h3
    have hz : ¬((num_seeds sp rows cols).toNat = 0) := by omega
    have hd : ¬(rows ≤ 0 ∨ cols ≤ 0) := by omega
    simp [set_up_grid, hz, hd]

/-- Witness for the amended C5: a -50 percent seed yields the all-dead grid,
a positive trial count with negative rows fails, and a 100 percent seed on a
1 × 1 window yields a grid. -/
theorem set_up_grid_no_validation_witness :
    set_up_grid 2 2 (-50) (fun _ => (0, 0)) true =
      some (List.replicate 3 (List.replicate 3 dead_c)) ∧
    set_up_grid 5 (-1) (-100) (fun _ => (0, 0)) true = none ∧
    (set_up_grid 1 1 100 (fun _ => (0, 0)) true).isSome = true :=
  ⟨by
      have h := (set_up_grid_no_validation 2 2 (-50) (fun _ => (0, 0))).1 (by decide)
      simpa using h,
   (set_up_grid_no_validation 5 (-1) (-100) (fun _ => (0, 0))).2.1 (by decide) (by decide),
   (set_up_grid_no_validation 1 1 100 (fun _ => (0, 0))).2.2 (by decide) (by decide) (by decide)⟩

/-! ## C2: the lag of the grandfather snapshot -/

/-- The grandfather field a loop pass stores (and compares against): it is
refreshed to the pre-advance grid exactly when the pass is entered with an
even iteration count, and kept unchanged otherwise. -/
theorem updateState_grandfather {G : Type} [BEq G] (s : LoopState G) (next : G) :
    (updateState s next).grandfather =
      if s.iterations % 2 == 0 then some s.grid else s.grandfather := rfl

/-- Once the counter-active flag is cleared on a pass entered with an odd
iteration count, every later pass leaves the snapshot, the counter and the
flag untouched. -/
theorem frozen_forever {G : Type} [BEq G] (adv : G → G) (s : LoopState G)
    (hact : s.iter_counter_active = false) (hodd : s.iterations % 2 = 1) :
    ∀ k : Nat, ((stepState adv)^[k] s).grandfather = s.grandfather ∧
      ((stepState adv)^[k] s).iterations = s.iterations ∧
      ((stepState adv)^[k] s).iter_counter_active = false := by
  intro k
  induction k with
  | zero => exact ⟨rfl, rfl, hact⟩
  | succ k ih =>
    rw [Function.iterate_succ_apply']
    obtain ⟨h1, h2, h3⟩ := ih
    have hodd' : (((stepState adv)^[k] s).iterations % 2 == 0) = false := by
      rw [h2, hodd]; rfl
    refine ⟨?_, ?_, ?_⟩
    · simp only [stepState, updateState_grandfather, hodd', Bool.false_eq_true,
        if_false]
      exact h1
    · simp [stepState, updateState, hodd', h2, h3]
    · simp [stepState, updateState, h3]

/-- C2 counterexample: in the generation-counting instantiation (grid `g` is
generation `g`, starting from generation 0), at the very first oscillation
comparison the grandfather snapshot is generation 0 while the current grid is
generation 1 — the snapshot is neither absent nor two generations older. -/
theorem grandfather_lag_cx :
    (stepState (fun g : Int => g + 1) ⟨0, none, 0, true⟩).grid = 1 ∧
    (stepState (fun g : Int => g + 1) ⟨0, none, 0, true⟩).grandfather = some 0 ∧
    (stepState (fun g : Int => g + 1) ⟨0, none, 0, true⟩).grandfather ≠ none ∧
    (stepState (fun g : Int => g + 1) ⟨0, none, 0, true⟩).grandfather ≠
      some ((stepState (fun g : Int => g + 1) ⟨0, none, 0, true⟩).grid - 2) := by
  decide

/-- C2 amended: the snapshot is absent only before the first pass and is
present at every oscillation comparison from the first pass on.  Its lag is
not constantly two generations: a pass entered with an even iteration count
first refreshes the snapshot to the pre-advance grid, so its comparison uses
a snapshot exactly one generation old; when such a pass leaves the counter
active, the next (odd-entered) pass keeps that snapshot, whose comparison is
then against the grid of exactly two generations earlier; and once
oscillation detection clears the counter-active flag at an odd count, the
snapshot and the counter never change again, so the snapshot falls ever
further behind the advancing grid. -/
theorem grandfather_snapshot_behavior {G : Type} [BEq G] (adv : G → G) (g0 : G) :
    (∀ n : Nat, ((stepState adv)^[n + 1] ⟨g0, none, 0, true⟩).grandfather ≠ none) ∧
    (∀ s : LoopState G, s.iterations % 2 = 0 →
      (updateState s (adv s.grid)).grandfather = some s.grid) ∧
    (∀ s : LoopState G, s.iterations % 2 = 1 →
      (updateState s (adv s.grid)).grandfather = s.grandfather) ∧
    (∀ s : LoopState G, s.iterations % 2 = 0 → s.iter_counter_active = true →
      (some (adv s.grid) == some s.grid) = false →
      (stepState adv (stepState adv s)).grandfather = some s.grid ∧
      (stepState adv (stepState adv s)).grid = adv (adv s.grid)) ∧
    (∀ (s : LoopState G) (k : Nat), s.iter_counter_active = false →
      s.iterations % 2 = 1 →
      ((stepState adv)^[k] s).grandfather = s.grandfather ∧
      ((stepState adv)^[k] s).iterations = s.iterations) := by
  refine ⟨?_, ?_, ?_, ?_, ?_⟩
  · intro n
    induction n with
    | zero => simp [stepState, updateState]
    | succ n ih =>
      rw [Function.iterate_succ_apply']
      simp only [stepState, updateState_grandfather]
      split_ifs
      · simp
      · exact ih
  · intro s h
    have h0 : (s.iterations % 2 == 0) = true := by rw [h]; rfl
    rw [updateState_grandfather, h0, if_pos rfl]
  · intro s h
    have h1 : (s.iterations % 2 == 0) = false := by rw [h]; rfl
    simp only [updateState_grandfather, h1, Bool.false_eq_true, if_false]
  · intro s h0 hact hosc
    have h0' : (s.iterations % 2 == 0) = true := by rw [h0]; rfl
    have hs' : stepState adv s =
        ⟨adv s.grid, some s.grid, s.iterations + 1, true⟩ := by
      simp [stepState, updateState, h0', hosc, hact]
    rw [hs']
    constructor
    · have h1 : ((s.iterations + 1) % 2 == 0) = false := by
        have : (s.iterations + 1) % 2 = 1 := by omega
        rw [this]; rfl
      simp only [stepState, updateState_grandfather, h1, Bool.false_eq_true,
        if_false]
    · rfl
  · intro s k hact hodd
    exact ⟨(frozen_forever adv s hact hodd k).1, (frozen_forever adv s hact hodd k).2.1⟩

/-- Witness for the amended C2 on a genuinely oscillating session: grids over
`Int` with `adv g = -g` from initial grid 1 alternate 1, -1, 1, …; the first
pass refreshes the snapshot (lag 1), the second pass keeps it (lag 2) and —
since there the new grid equals it — clears the flag at the odd count 1,
after which snapshot and counter stay fixed forever. -/
theorem grandfather_snapshot_behavior_witness :
    ((stepState (fun g : Int => -g))^[2] ⟨1, none, 0, true⟩).grandfather ≠ none ∧
    (updateState (⟨1, none, 0, true⟩ : LoopState Int)
      ((fun g : Int => -g) 1)).grandfather = some 1 ∧
    (updateState (⟨-1, some 1, 1, true⟩ : LoopState Int)
      ((fun g : Int => -g) (-1))).grandfather = some 1 ∧
    (stepState (fun g : Int => -g)
      (stepState (fun g : Int => -g) ⟨1, none, 0, true⟩)).grandfather = some 1 ∧
    ((stepState (fun g : Int => -g))^[3] ⟨(1 : Int), some 1, 1, false⟩).grandfather = some 1 ∧
    ((stepState (fun g : Int => -g))^[3] ⟨(1 : Int), some 1, 1, false⟩).iterations = 1 :=
  have T := grandfather_snapshot_behavior (fun g : Int => -g) 1
  ⟨T.1 1,
   T.2.1 ⟨1, none, 0, true⟩ rfl,
   T.2.2.1 ⟨-1, some 1, 1, true⟩ rfl,
   (T.2.2.2.1 ⟨1, none, 0, true⟩ rfl rfl (by decide)).1,
   (T.2.2.2.2 ⟨(1 : Int), some 1, 1, false⟩ 3 rfl rfl).1,
   (T.2.2.2.2 ⟨(1 : Int), some 1, 1, false⟩ 3 rfl rfl).2⟩

/-! ## C6: the number and effect of the seeding trials -/

/-- The cell the Python assignment `grid[y][x] = v` touches: reading any
cell of `setCell g px py v` gives either the old value or, exactly at the
picked (nonnegative, in-range) coordinates, the written value. -/
theorem cellAt_setCell (g : Grid) (px py : Int) (v : Char) (x y : Nat) :
    cellAt (setCell g px py v) x y = cellAt g x y ∨
    (0 ≤ px ∧ 0 ≤ py ∧ x = px.toNat ∧ y = py.toNat ∧
      cellAt (setCell g px py v) x y = some v) := by
  unfold setCell
  split_ifs with hpq
  · cases hget : g.get? py.toNat with
    | none => left; rfl
    | some row =>
      by_cases hyy : y = py.toNat
      · by_cases hxx : x = px.toNat
        · cases hrget : row.get? px.toNat with
          | none =>
            left
            unfold cellAt
            rw [hyy, hxx, List.get?_set_eq, hget]
            simp only [Option.map_eq_map, Option.map_some', Option.some_bind]
            rw [List.get?_set_eq, hrget]
            rfl
          | some w =>
            right
            refine ⟨hpq.1, hpq.2, hxx, hyy, ?_⟩
            unfold cellAt
            rw [hyy, hxx, List.get?_set_eq, hget]
            simp only [Option.map_eq_map, Option.map_some', Option.some_bind]
            rw [List.get?_set_eq, hrget]
            rfl
        · left
          unfold cellAt
          rw [hyy, List.get?_set_eq, hget]
          simp only [Option.map_eq_map, Option.map_some', Option.some_bind]
          exact List.get?_set_ne _ _ fun h => hxx h.symm
      · left
        unfold cellAt
        rw [List.get?_set_ne _ _ fun h => hyy h.symm]
  · left; rfl

/-- Any cell alive after a run of seeding trials was either alive before or
is exactly one of the picked cells. -/
theorem foldl_setCell_alive (picks : Nat → Int × Int) (l : List Nat) :
    ∀ (g : Grid) (x y : Nat),
      cellAt (l.foldl (fun g i => setCell g (picks i).1 (picks i).2 alive_c) g) x y
          = some alive_c →
      cellAt g x y = some alive_c ∨
        ∃ i ∈ l, (x : Int) = (picks i).1 ∧ (y : Int) = (picks i).2 := by
  induction l with
  | nil => intro g x y h; exact Or.inl h
  | cons a l ih =>
    intro g x y h
    rw [List.foldl_cons] at h
    rcases ih (setCell g (picks a).1 (picks a).2 alive_c) x y h with h' | ⟨i, hi, hco⟩
    · rcases cellAt_setCell g (picks a).1 (picks a).2 alive_c x y with hc | ⟨hp1, hp2, hx, hy, hc⟩
      · left; rw [← hc]; exact h'
      · right
        refine ⟨a, List.mem_cons_self a l, ?_, ?_⟩
        · rw [hx]; exact Int.toNat_of_nonneg hp1
        · rw [hy]; exact Int.toNat_of_nonneg hp2
    · exact Or.inr ⟨i, List.mem_cons_of_mem a hi, hco⟩

/-- The freshly allocated grid has no live cell. -/
theorem template_not_alive (rows cols : Int) (x y : Nat)
    (h : cellAt (List.replicate (rows + 1).toNat
        (List.replicate (cols + 1).toNat dead_c)) x y = some alive_c) : False := by
  unfold cellAt at h
  rcases Option.bind_eq_some.1 h with ⟨row, hrow, hc⟩
  rw [List.eq_of_mem_replicate (List.get?_mem hrow)] at hc
  exact absurd (List.eq_of_mem_replicate (List.get?_mem hc)) (by decide)

/-- C6 counterexample: with a 15 percent seed on a `5 × 2` window
(`p · rows · cols = 1.5`), the code performs `int(1.5) = 1` trial — with
distinct picks only one cell becomes alive — whereas the claimed
`round(1.5) = 2`. -/
theorem seeding_trials_cx :
    num_seeds 15 2 5 = 1 ∧
    round ((15 : ℚ) / 100 * (2 * 5)) = 2 ∧
    set_up_grid 5 2 15 (fun i => ((i : Int), 0)) true =
      some ([alive_c, dead_c, dead_c, dead_c, dead_c, dead_c] ::
            List.replicate 2 (List.replicate 6 dead_c)) := by
  refine ⟨by decide, ?_, by decide⟩
  rw [show (15 : ℚ) / 100 * (2 * 5) = 3 / 2 by norm_num, round_eq,
    show (3 / 2 + 1 / 2 : ℚ) = ((2 : Int) : ℚ) by norm_num]
  exact Int.floor_intCast 2

/-- C6 amended: grid creation performs exactly
`int((seed_percentage / 100) · rows · cols)` seeding trials — `int()`
truncation, not rounding — each setting the picked random cell
`(x, y) ∈ [0, cols) × [0, rows)` to alive; with percentage 0 the result is
the all-dead grid, and every live cell of a seeded grid is one of the first
`num_seeds` picks. -/
theorem seeding_trials (cols rows sp : Int) (picks : Nat → Int × Int)
    (hpicks : ∀ i, 0 ≤ (picks i).1 ∧ (picks i).1 < cols ∧
      0 ≤ (picks i).2 ∧ (picks i).2 < rows) :
    (set_up_grid cols rows 0 picks true =
        some (List.replicate (rows + 1).toNat (List.replicate (cols + 1).toNat dead_c)) ∧
      ∀ row ∈ (List.replicate (rows + 1).toNat
          (List.replicate (cols + 1).toNat dead_c) : Grid), ∀ c ∈ row, c = dead_c) ∧
    (∀ g : Grid, set_up_grid cols rows sp picks true = some g →
      ∀ x y : Nat, cellAt g x y = some alive_c →
        ∃ i, i < (num_seeds sp rows cols).toNat ∧
          (x : Int) = (picks i).1 ∧ (y : Int) = (picks i).2 ∧
          0 ≤ (picks i).1 ∧ (picks i).1 < cols ∧
          0 ≤ (picks i).2 ∧ (picks i).2 < rows) := by
  constructor
  · constructor
    · simp [set_up_grid, num_seeds]
    · intro row hrow c hc
      rw [List.eq_of_mem_replicate hrow] at hc
      exact List.eq_of_mem_replicate hc
  · intro g hg x y halive
    unfold set_up_grid at hg
    by_cases hz : (num_seeds sp rows cols).toNat = 0
    · rw [if_pos rfl, if_pos hz, Option.some.injEq] at hg
      exact absurd (hg ▸ halive) fun hcontra => template_not_alive rows cols x y hcontra
    · rw [if_pos rfl, if_neg hz] at hg
      by_cases hd : rows ≤ 0 ∨ cols ≤ 0
      · rw [if_pos hd] at hg
        exact Option.noConfusion hg
      · rw [if_neg hd, Option.some.injEq] at hg
        subst hg
        rcases foldl_setCell_alive picks (List.range (num_seeds sp rows cols).toNat)
            _ x y halive with h | ⟨i, hi, hx, hy⟩
        · exact absurd h fun hcontra => template_not_alive rows cols x y hcontra
        · exact ⟨i, List.mem_range.1 hi, hx, hy, (hpicks i).1, (hpicks i).2.1,
            (hpicks i).2.2.1, (hpicks i).2.2.2⟩

/-- Witness for the amended C6 at a 100 percent seed on a 2 × 2 window with
all picks at `(0, 0)`. -/
theorem seeding_trials_witness :
    set_up_grid 2 2 0 (fun _ => ((0 : Int), (0 : Int))) true =
      some (List.replicate ((2 : Int) + 1).toNat
        (List.replicate ((2 : Int) + 1).toNat dead_c)) ∧
    (∃ i, i < (num_seeds 100 2 2).toNat ∧
      ((0 : Nat) : Int) = ((fun _ => ((0 : Int), (0 : Int))) i).1 ∧
      ((0 : Nat) : Int) = ((fun _ => ((0 : Int), (0 : Int))) i).2 ∧
      0 ≤ ((fun _ => ((0 : Int), (0 : Int))) i).1 ∧
      ((fun _ => ((0 : Int), (0 : Int))) i).1 < 2 ∧
      0 ≤ ((fun _ => ((0 : Int), (0 : Int))) i).2 ∧
      ((fun _ => ((0 : Int), (0 : Int))) i).2 < 2) :=
  have hp : ∀ i : Nat, 0 ≤ ((fun _ => ((0 : Int), (0 : Int))) i).1 ∧
      ((fun _ => ((0 : Int), (0 : Int))) i).1 < 2 ∧
      0 ≤ ((fun _ => ((0 : Int), (0 : Int))) i).2 ∧
      ((fun _ => ((0 : Int), (0 : Int))) i).2 < 2 := by
    intro i
    refine ⟨le_rfl, by norm_num, le_rfl, by norm_num⟩
  ⟨(seeding_trials 2 2 100 (fun _ => ((0 : Int), (0 : Int))) hp).1.1,
   (seeding_trials 2 2 100 (fun _ => ((0 : Int), (0 : Int))) hp).2
     [[alive_c, dead_c, dead_c], [dead_c, dead_c, dead_c], [dead_c, dead_c, dead_c]]
     (by decide) 0 0 (by decide)⟩

/-! ## C7: a no-change pass ends the session as Extinct or Equilibrium -/

/-- C7: in every loop pass where the advance step reports no cell changed
(and the input poll does not itself end the session), the session terminates:
the pass pauses for acknowledgment — a quit key during that pause exits the
whole program — and otherwise the stop is classified Extinct when no cell of
the new grid is alive and Equilibrium otherwise. -/
theorem no_change_terminates (adv : Grid → Option (Grid × Bool))
    (s : LoopState Grid) (key pause_key stop_key : Cmd) (si si' : Int)
    (next : Grid)
    (hadv : adv s.grid = some (next, false))
    (hin : check_input si key pause_key = some (false, si')) :
    loopBody check_for_extinction adv s key pause_key stop_key si =
      (Sum.inl (if pause stop_key then Outcome.quit
                else if check_for_extinction next then Outcome.stoppedExtinct
                else Outcome.stoppedEquilibrium), si') := by
  unfold loopBody
  rw [hadv, hin]
  simp only [Bool.not_false, if_true]
  split_ifs <;> rfl

/-- Witness for C7: a pass whose advance reports no change on an all-dead
1 × 1 grid stops the session as Extinct. -/
theorem no_change_terminates_witness :
    loopBody check_for_extinction (fun g => some (g, false))
      (⟨[[dead_c]], none, 0, true⟩ : LoopState Grid)
      Cmd.noKey Cmd.noKey Cmd.noKey 10 =
      (Sum.inl Outcome.stoppedExtinct, 10) := by
  have h := no_change_terminates (fun g => some (g, false))
    (⟨[[dead_c]], none, 0, true⟩ : LoopState Grid)
    Cmd.noKey Cmd.noKey Cmd.noKey 10 10 [[dead_c]] rfl rfl
  rw [h]
  decide

/-! ## C8: oscillation keeps the loop running and freezes the counter -/

/-- C8: when the advance step reports a change and the input poll does not
end the session, the pass always continues into the next state (in
particular, detecting that the new grid equals the grandparent never ends
the session); when the new grid equals the grandparent reference the
counter-active flag is cleared, and once the flag is cleared it stays
cleared and the iteration counter no longer increments. -/
theorem oscillation_freezes (adv : Grid → Option (Grid × Bool))
    (s : LoopState Grid) (key pause_key stop_key : Cmd) (si si' : Int)
    (next : Grid)
    (hadv : adv s.grid = some (next, true))
    (hin : check_input si key pause_key = some (false, si')) :
    loopBody check_for_extinction adv s key pause_key stop_key si =
      (Sum.inr (updateState s next), si') ∧
    ((some next == (if s.iterations % 2 == 0 then some s.grid else s.grandfather)) = true →
      (updateState s next).iter_counter_active = false) ∧
    (s.iter_counter_active = false →
      (updateState s next).iter_counter_active = false ∧
      (updateState s next).iterations = s.iterations) := by
  refine ⟨?_, ?_, ?_⟩
  · unfold loopBody
    rw [hadv, hin]
    simp
  · intro hosc
    simp only [updateState, hosc]
    simp
  · intro hact
    simp [updateState, hact]

/-- Witness for C8: a changed pass on a 1 × 1 grid whose new grid equals the
just-refreshed grandparent snapshot continues running with the counter
frozen at 0. -/
theorem oscillation_freezes_witness :
    loopBody check_for_extinction (fun g => some (g, true))
      (⟨[[dead_c]], none, 0, false⟩ : LoopState Grid)
      Cmd.noKey Cmd.noKey Cmd.noKey 10 =
      (Sum.inr (updateState (⟨[[dead_c]], none, 0, false⟩ : LoopState Grid) [[dead_c]]), 10) ∧
    (updateState (⟨[[dead_c]], none, 0, false⟩ : LoopState Grid) [[dead_c]]).iter_counter_active = false ∧
    (updateState (⟨[[dead_c]], none, 0, false⟩ : LoopState Grid) [[dead_c]]).iterations = 0 :=
  have h := oscillation_freezes (fun g => some (g, true))
    (⟨[[dead_c]], none, 0, false⟩ : LoopState Grid)
    Cmd.noKey Cmd.noKey Cmd.noKey 10 10 [[dead_c]] rfl rfl
  ⟨h.1, (h.2.2 rfl).1, (h.2.2 rfl).2⟩

/-! ## C10: every constructed grid is two-valued -/

/-- The freshly allocated grid is two-valued. -/
theorem twoValued_template (rows cols : Int) :
    TwoValued (List.replicate (rows + 1).toNat
      (List.replicate (cols + 1).toNat dead_c)) := by
  intro row hrow c hc
  rw [List.eq_of_mem_replicate hrow] at hc
  exact Or.inl (List.eq_of_mem_replicate hc)

/-- Writing a legal cell value preserves two-valuedness. -/
theorem twoValued_setCell (g : Grid) (x y : Int) (v : Char)
    (hg : TwoValued g) (hv : cell_ok v) : TwoValued (setCell g x y v) := by
  unfold setCell
  split_ifs with h0
  · cases hget : g.get? y.toNat with
    | none => exact hg
    | some row =>
      intro row' hrow' c hc
      rcases List.mem_or_eq_of_mem_set hrow' with h | h
      · exact hg row' h c hc
      · subst h
        rcases List.mem_or_eq_of_mem_set hc with h | h
        · exact hg row (List.get?_mem hget) c h
        · exact h ▸ hv
  · exact hg

/-- Writing a legal cell value through `setCellOpt` preserves two-valuedness. -/
theorem twoValued_setCellOpt (g : Grid) (x y : Nat) (v : Char) (g' : Grid)
    (hg : TwoValued g) (hv : cell_ok v) (h : setCellOpt g x y v = some g') :
    TwoValued g' := by
  unfold setCellOpt at h
  rcases Option.bind_eq_some.1 h with ⟨row, hget, h⟩
  split_ifs at h with hlen
  · rw [Option.some.injEq] at h
    subst h
    intro row' hrow' c hc
    rcases List.mem_or_eq_of_mem_set hrow' with hm | hm
    · exact hg row' hm c hc
    · subst hm
      rcases List.mem_or_eq_of_mem_set hc with hm | hm
      · exact hg row (List.get?_mem hget) c hm
      · exact hm ▸ hv

/-- `decide_fate` only ever returns the two legal cell values. -/
theorem decide_fate_cell_ok (x y : Int) (n : Nat) (g : Grid) (c : Char)
    (h : decide_fate x y n g = some c) : cell_ok c := by
  unfold decide_fate at h
  cases hv : get_coordinate_value x y g with
  | none => rw [hv] at h; exact Option.noConfusion h
  | some alive =>
    rw [hv] at h
    simp only [Option.map_some', Option.some.injEq] at h
    subst h
    split_ifs <;> first | exact Or.inr rfl | exact Or.inl rfl

/-- One inner advance step preserves two-valuedness of the accumulated next
grid. -/
theorem advStep_preserves (grid : Grid) (y : Nat) (acc s' : Grid × Bool) (x : Nat)
    (hP : TwoValued acc.1) (h : advStep grid y acc x = some s') : TwoValued s'.1 := by
  unfold advStep at h
  rcases Option.bind_eq_some.1 h with ⟨n, hn, h⟩
  rcases Option.bind_eq_some.1 h with ⟨v, hvv, h⟩
  rcases Option.bind_eq_some.1 h with ⟨old, hold, h⟩
  rcases Option.bind_eq_some.1 h with ⟨next, hnext, h⟩
  simp only [pure, Option.some.injEq] at h
  subst h
  exact twoValued_setCellOpt acc.1 x y v next hP (decide_fate_cell_ok x y n grid v hvv) hnext

/-- C10: every cell of every grid the program constructs is `dead_c` or
`alive_c`: `decide_fate` only returns these two values, every grid `set_up_grid`
returns is two-valued, and the advance step preserves two-valuedness of its
(two-valued, freshly allocated) next grid. -/
theorem two_valued_invariant :
    (∀ (x y : Int) (n : Nat) (g : Grid) (c : Char),
      decide_fate x y n g = some c → cell_ok c) ∧
    (∀ (cols rows sp : Int) (picks : Nat → Int × Int) (sg : Bool) (g : Grid),
      set_up_grid cols rows sp picks sg = some g → TwoValued g) ∧
    (∀ (g tmpl g' : Grid) (ch : Bool),
      TwoValued tmpl → advance g tmpl = some (g', ch) → TwoValued g') := by
  refine ⟨decide_fate_cell_ok, ?_, ?_⟩
  · intro cols rows sp picks sg g hg
    unfold set_up_grid at hg
    cases sg with
    | false =>
      rw [if_neg (by decide), Option.some.injEq] at hg
      exact hg ▸ twoValued_template rows cols
    | true =>
      rw [if_pos rfl] at hg
      by_cases h1 : (num_seeds sp rows cols).toNat = 0
      · rw [if_pos h1, Option.some.injEq] at hg
        exact hg ▸ twoValued_template rows cols
      · rw [if_neg h1] at hg
        by_cases h2 : rows ≤ 0 ∨ cols ≤ 0
        · rw [if_pos h2] at hg
          exact Option.noConfusion hg
        · rw [if_neg h2, Option.some.injEq] at hg
          subst hg
          have hfold : ∀ (l : List Nat) (g0 : Grid), TwoValued g0 →
              TwoValued (l.foldl (fun g i => setCell g (picks i).1 (picks i).2 alive_c) g0) := by
            intro l
            induction l with
            | nil => intro g0 hg0; exact hg0
            | cons a l ih =>
              intro g0 hg0
              rw [List.foldl_cons]
              exact ih _ (twoValued_setCell g0 (picks a).1 (picks a).2 alive_c hg0 (Or.inr rfl))
          exact hfold _ _ (twoValued_template rows cols)
  · intro g tmpl g' ch htmpl hadv
    unfold advance at hadv
    refine foldlM_option_inv _ (fun acc : Grid × Bool => TwoValued acc.1) ?_
      g.enum (tmpl, false) (g', ch) htmpl hadv
    intro s a s' hs hstep
    exact foldlM_option_inv (advStep g a.1) (fun acc => TwoValued acc.1)
      (fun s1 x s1' hs1 hx => advStep_preserves g a.1 s1 s1' x hs1 hx)
      (List.range a.2.length) s s' hs hstep

/-- Witness for C10 at concrete inputs: a `decide_fate` value, a seeded 2 × 2
grid, and an advance of the all-dead 1 × 1 grid. -/
theorem two_valued_invariant_witness :
    cell_ok alive_c ∧
    TwoValued [[alive_c, dead_c], [dead_c, dead_c]] ∧
    TwoValued [[dead_c]] :=
  have hT : TwoValued [[dead_c]] := by
    intro row hrow c hc
    rw [List.mem_singleton] at hrow
    subst hrow
    rw [List.mem_singleton] at hc
    exact Or.inl hc
  ⟨two_valued_invariant.1 0 0 3 [[alive_c]] alive_c rfl,
   two_valued_invariant.2.1 1 1 100 (fun _ => (0, 0)) true
     [[alive_c, dead_c], [dead_c, dead_c]] rfl,
   two_valued_invariant.2.2 [[dead_c]] [[dead_c]] [[dead_c]] false
     hT rfl⟩

end Gol
